import Mathlib

/-!
Shallow embedding of the YAKZ ETHIstanbul token-swap front-end.

The embedded code is `src/frontend/src/App.jsx` (the swap form controller)
and the aggregator client `aggregate` (`src/services/api.js`).  React
`useState` cells become fields of an explicit `State` record; each event
handler becomes a function from the old state (plus the environment's
responses to the external calls it makes) to the new state, paired with
the list of observable effects it performs, in program order.
-/

/-- A tradable asset, as in the hard-coded `tokens` array of `App.jsx`:
`name`, `address`, `img`, plus the optional `balance` string that
`getTokenBalance` merges in after a fetch. -/
structure Token where
  name : String
  address : String
  img : String
  balance : Option String := none
deriving DecidableEq, Repr

/-- `tokens[0]` in `App.jsx`. -/
def ethToken : Token :=
  { name := "ETH"
    address := "0x4200000000000000000000000000000000000006"
    img := "https://cdn.worldvectorlogo.com/logos/ethereum-eth.svg" }

/-- `tokens[1]` in `App.jsx`. -/
def usdcToken : Token :=
  { name := "USDC"
    address := "0x833589fCD6eDb6E08f4c7C32D4f71b54bdA02913"
    img := "https://encrypted-tbn0.gstatic.com/images?q=tbn:ANd9GcQ43MuDqq54iD1ZCRL_uthAPkfwSSL-J5qI_Q&s" }

/-- `tokens[2]` in `App.jsx`. -/
def usdtToken : Token :=
  { name := "USDT"
    address := "0xfde4C96c8593536E31F229EA8f37b2ADa2699bb2"
    img := "https://images.seeklogo.com/logo-png/32/1/tether-usdt-logo-png_seeklogo-323175.png" }

/-- `tokens[3]` in `App.jsx`. -/
def linkToken : Token :=
  { name := "LINK"
    address := "0x1D9328F2713E8b4EFca304093D53fcC2c068B7Cd"
    img := "https://s2.coinmarketcap.com/static/img/coins/200x200/1975.png" }

/-- The fixed four-token registry of `App.jsx`. -/
def tokens : List Token := [ethToken, usdcToken, usdtToken, linkToken]

/-- A route mapping: the aggregator's JSON-object response, an ordered
association of address-like keys to amounts (`Object.entries` order).
`data1` starts as the empty object `{}`. -/
abbrev RouteMapping := List (String × String)

/-- The controller state: one field per `useState` cell of `App.jsx`
(`fromToken`, `toToken`, `amount`, `isRoute`, `data1`, `signer`,
`address`, `provider`, `searchTerm`).  The opaque ethers signer and
provider handles are modelled as strings. -/
structure State where
  fromToken : Token
  toToken : Token
  amount : String
  isRoute : Bool
  data1 : RouteMapping
  signer : Option String
  address : Option String
  provider : Option String
  searchTerm : String
deriving DecidableEq, Repr

/-- The state `App.jsx` mounts with: `fromToken = tokens[0]`,
`toToken = tokens[2]`, `amount = ""`, `isRoute = false`, `data1 = {}`,
no wallet session, `searchTerm = ""`. -/
def initState : State :=
  { fromToken := ethToken
    toToken := usdtToken
    amount := ""
    isRoute := false
    data1 := []
    signer := none
    address := none
    provider := none
    searchTerm := "" }

/-- Does the character list `sub` occur at the head of `s`?  Helper for
the JS `String.prototype.includes` used by the token filter. -/
def charsStartsWith : List Char → List Char → Bool
  | _, [] => true
  | [], _ :: _ => false
  | c :: cs, d :: ds => c == d && charsStartsWith cs ds

/-- Does the character list `sub` occur contiguously anywhere in `s`?
Helper for the JS `String.prototype.includes`. -/
def charsContains : List Char → List Char → Bool
  | [], sub => sub.isEmpty
  | s@(_ :: rest), sub => charsStartsWith s sub || charsContains rest sub

/-- JS `s.includes(sub)`: substring containment (the empty string is
contained in every string). -/
def strIncludes (s sub : String) : Bool :=
  charsContains s.toList sub.toList

/-- JS `s.toLowerCase()`: lower-case each character (`Char.toLower`
agrees with JS on the ASCII token names in play). -/
def strToLower (s : String) : String :=
  String.mk (s.toList.map Char.toLower)

/-- The `filteredTokens` computation of `App.jsx`:
`tokens.filter(token => token.name.toLowerCase().includes(searchTerm.toLowerCase()))`. -/
def filterTokens (searchTerm : String) : List Token :=
  tokens.filter fun token => strIncludes (strToLower token.name) (strToLower searchTerm)

/-- `handleSwap` of `App.jsx`: save `fromToken` in `token1`, set
`fromToken` to `toToken`, set `toToken` to `token1`. -/
def handleSwap (s : State) : State :=
  let token1 := s.fromToken
  { s with fromToken := s.toToken, toToken := token1 }

/-- The `onClick` of each percentage preset button: `setAmount(p)`. -/
def setAmount (p : String) (s : State) : State :=
  { s with amount := p }

/-- The four preset labels rendered by `App.jsx`. -/
def presets : List String := ["25%", "50%", "75%", "100%"]

/-- Whether preset button `p` carries the `active` class:
`amount === p && "active"` in the button's `className`. -/
def isPresetActive (s : State) (p : String) : Bool :=
  s.amount == p

/-- The `onChange` handler of both dropdown search inputs:
`setSearchTerm(e.target.value)`. -/
def setSearchTerm (t : String) (s : State) : State :=
  { s with searchTerm := t }

/-- The token list rendered inside the source-token dropdown
(`filteredTokens.map(...)` at the `setFromToken` call site). -/
def sourceDropdownTokens (s : State) : List Token :=
  filterTokens s.searchTerm

/-- The token list rendered inside the destination-token dropdown
(`filteredTokens.map(...)` at the `setToToken` call site). -/
def destDropdownTokens (s : State) : List Token :=
  filterTokens s.searchTerm

/-- The network outcome of the single `fetch` issued by `aggregate`
(`src/services/api.js`): either the fetch itself rejects (network
error), or a response arrives carrying an HTTP status and a body that
either parses as a JSON route-mapping object (`some`) or makes
`response.json()` throw (`none`). -/
structure HttpResponse where
  status : Nat
  jsonBody : Option RouteMapping
deriving DecidableEq, Repr

/-- Outcome of `fetch(url, ...)` inside `aggregate`. -/
inductive FetchResult where
  | networkError
  | response (r : HttpResponse)
deriving DecidableEq, Repr

/-- `aggregate` of `src/services/api.js`: awaits the fetch, awaits
`response.json()`, and returns the parsed data; any thrown error
(network failure, JSON parse failure) is caught, logged, and the
function returns `undefined` (`none`).  The HTTP status is never
inspected. -/
def aggregate : FetchResult → Option RouteMapping
  | FetchResult.networkError => none
  | FetchResult.response r => r.jsonBody

/-- The observable effects of `handleFinishSwap`, in program order. -/
inductive SwapAction where
  | setIsRoute (b : Bool)
  | callAggregate
  | setData (d : RouteMapping)
  | playAudio
  | logFailure
  | logError
deriving DecidableEq, Repr

/-- `handleFinishSwap` of `App.jsx`: sets `isRoute` to `true`, awaits
`aggregate(fromToken.address, "1", toToken.address)`; a truthy result
is stored via `setData` and the success audio cue plays; a falsy result
only logs `"Failed to update transaction status"`; a thrown error only
logs.  Returns the new state and the effect trace. -/
def handleFinishSwap (s : State) (r : FetchResult) : State × List SwapAction :=
  let s1 := { s with isRoute := true }
  match aggregate r with
  | some d =>
      ({ s1 with data1 := d },
       [SwapAction.setIsRoute true, SwapAction.callAggregate, SwapAction.setData d,
        SwapAction.playAudio])
  | none =>
      (s1, [SwapAction.setIsRoute true, SwapAction.callAggregate, SwapAction.logFailure])

/-- Is an action a write to the `isRoute` flag? -/
def isSetIsRouteAction : SwapAction → Bool
  | SwapAction.setIsRoute _ => true
  | _ => false

/-- Does the `handleFinishSwap` trace write `true` to `isRoute` before
the `aggregate` call is issued? -/
def flagSetTrueBeforeCall (s : State) (r : FetchResult) : Bool :=
  ((handleFinishSwap s r).2.takeWhile fun a => a != SwapAction.callAggregate).any
    fun a => a == SwapAction.setIsRoute true

/-- Does the `handleFinishSwap` trace write the `isRoute` flag at any
point after the `aggregate` call resolves? -/
def flagWrittenAfterCall (s : State) (r : FetchResult) : Bool :=
  (((handleFinishSwap s r).2.dropWhile fun a => a != SwapAction.callAggregate).drop 1).any
    isSetIsRouteAction

/-- Environment of `handleConnectWallet`: whether `window.ethereum`
exists, and, when the connection attempt is made, either the
`(signer, provider, address)` triple or `none` when `getSigner` /
`getAddress` throws. -/
structure WalletEnv where
  hasEthereum : Bool
  connectResult : Option (String × String × String)
deriving DecidableEq, Repr

/-- The observable effects of `handleConnectWallet`, in program order. -/
inductive WalletEffect where
  | alertNoWallet
  | connectAttempt
  | fetchBalance (tokenAddress : String) (fromOrTo : String)
  | logConnectError
deriving DecidableEq, Repr

/-- `handleConnectWallet` of `App.jsx`: if `window.ethereum` is absent,
alert `"MetaMask not found!"` and return before any async call;
otherwise attempt the connection, and on success store signer, address
and provider and trigger the two balance fetches (`from` then `to`);
a thrown error is caught and logged with no state change. -/
def handleConnectWallet (env : WalletEnv) (s : State) : State × List WalletEffect :=
  if !env.hasEthereum then
    (s, [WalletEffect.alertNoWallet])
  else
    match env.connectResult with
    | some (sg, pv, ad) =>
        ({ s with signer := some sg, address := some ad, provider := some pv },
         [WalletEffect.connectAttempt,
          WalletEffect.fetchBalance s.fromToken.address "from",
          WalletEffect.fetchBalance s.toToken.address "to"])
    | none =>
        (s, [WalletEffect.connectAttempt, WalletEffect.logConnectError])

/-- The decimal-string formatting of ethers `formatUnits(value, decimals)`
for non-negative integers (`formatEther x = formatUnits x 18`): the
integer part, a dot, and the fractional digits padded to `decimals`
places with trailing zeros trimmed (at least one digit kept). -/
def formatUnits (value : Nat) (decimals : Nat) : String :=
  let base := 10 ^ decimals
  let whole := value / base
  let fracDigits := Nat.toDigits 10 (value % base)
  let padded := List.replicate (decimals - fracDigits.length) '0' ++ fracDigits
  let trimmed := (padded.reverse.dropWhile fun c => c == '0').reverse
  toString whole ++ "." ++ (if trimmed.isEmpty then "0" else String.mk trimmed)

/-- The chain-side environment `getTokenBalance` runs against: whether
`window.ethereum` exists, the accounts answered by
`eth_requestAccounts`, the native balance read, ethers `getAddress`
checksum validation (`none` when it throws), and the three ERC-20 reads
(`none` when the contract call rejects). -/
structure ChainEnv where
  hasEthereum : Bool
  accounts : List String
  nativeBalance : String → Nat
  getAddress : String → Option String
  balanceOf : String → String → Option Nat
  decimalsOf : String → Option Nat
  symbolOf : String → Option String

/-- The chain reads `getTokenBalance` can issue. -/
inductive BalanceRead where
  | nativeBalanceRead
  | balanceOfRead
  | decimalsRead
  | symbolRead
deriving DecidableEq, Repr

/-- Lines 148-158 of `App.jsx`: spread the role's current token, attach
the fetched `balance`, and store it back into the role's state cell. -/
def updateTokenState (s : State) (fromOrTo : String) (balance : String) : State :=
  let updatedToken :=
    { (if fromOrTo = "from" then s.fromToken else s.toToken) with
      balance := some balance }
  if fromOrTo = "from" then
    { s with fromToken := updatedToken }
  else
    { s with toToken := updatedToken }

/-- `getTokenBalance` of `App.jsx`.  Returns the new state and the
chain reads issued, grouped into concurrently-issued batches (the three
ERC-20 reads go through one `Promise.all`).  Early returns: no
`window.ethereum`, no account, or `ethers.getAddress` throwing on the
token address, each issue no read; a rejected contract read still
counts as issued (the `Promise.all` rejection is caught after the
batch is in flight). -/
def getTokenBalance (env : ChainEnv) (tokenAddress fromOrTo : String) (s : State) :
    State × List (List BalanceRead) :=
  if !env.hasEthereum then (s, [])
  else
    match env.accounts.head? with
    | none => (s, [])
    | some userAddress =>
      if tokenAddress = "0x4200000000000000000000000000000000000006" then
        (updateTokenState s fromOrTo (formatUnits (env.nativeBalance userAddress) 18),
         [[BalanceRead.nativeBalanceRead]])
      else
        match env.getAddress tokenAddress with
        | none => (s, [])
        | some contractAddress =>
          match env.balanceOf contractAddress userAddress,
                env.decimalsOf contractAddress,
                env.symbolOf contractAddress with
          | some rawBalance, some decimals, some _fetchedSymbol =>
              (updateTokenState s fromOrTo (formatUnits rawBalance decimals),
               [[BalanceRead.balanceOfRead, BalanceRead.decimalsRead,
                 BalanceRead.symbolRead]])
          | _, _, _ =>
              (s, [[BalanceRead.balanceOfRead, BalanceRead.decimalsRead,
                    BalanceRead.symbolRead]])

/-- A healthy chain environment: wallet present, one account, every
read answering. -/
def envHealthy : ChainEnv :=
  { hasEthereum := true
    accounts := ["0x1111111111111111111111111111111111111111"]
    nativeBalance := fun _ => 2 * 10 ^ 18
    getAddress := fun a => some a
    balanceOf := fun _ _ => some 5000000
    decimalsOf := fun _ => some 6
    symbolOf := fun _ => some "USDC" }

/-- The environment with no wallet extension installed. -/
def envNoWallet : ChainEnv :=
  { hasEthereum := false
    accounts := []
    nativeBalance := fun _ => 0
    getAddress := fun _ => none
    balanceOf := fun _ _ => none
    decimalsOf := fun _ => none
    symbolOf := fun _ => none }

/-- Merging a fetched balance into one role's token leaves the
`isRoute` flag untouched. -/
theorem updateTokenState_isRoute (s : State) (role b : String) :
    (updateTokenState s role b).isRoute = s.isRoute := by
  by_cases h : role = "from" <;> simp [updateTokenState, h]

/-- C1: `aggregate` does NOT surface every malformed response as a
failure.  A non-2xx response whose body parses as JSON (here an HTTP
500 carrying a JSON error object) is returned to the caller as an
ordinary success value, and in general the returned value is
completely independent of the HTTP status, because the code never
inspects `response.ok` or `response.status`.  This evaluates the
embedded `aggregate` at the failing input and proves status
independence. -/
theorem aggregate_returns_non2xx_body_as_success :
    aggregate (FetchResult.response
        { status := 500, jsonBody := some [("error", "internal")] })
      = some [("error", "internal")] ∧
    ∀ (st st' : Nat) (b : Option RouteMapping),
      aggregate (FetchResult.response { status := st, jsonBody := b })
        = aggregate (FetchResult.response { status := st', jsonBody := b }) :=
  ⟨rfl, fun _ _ _ => rfl⟩

/-- C2: after a successful `handleFinishSwap` whose result is the empty
route mapping, the stored route state is distinguishable from the
state in which no aggregation has ever been attempted: the `data1`
mapping itself is `{}` in both, but `handleFinishSwap` always sets
`isRoute := true`, the mount state has `isRoute = false`, and no other
operation of the controller ever writes `isRoute`, so the resulting
state differs from every aggregation-free state. -/
theorem emptyRoute_state_distinguishable :
    initState.isRoute = false ∧
    (∀ s : State, (handleSwap s).isRoute = s.isRoute) ∧
    (∀ (p : String) (s : State), (setAmount p s).isRoute = s.isRoute) ∧
    (∀ (t : String) (s : State), (setSearchTerm t s).isRoute = s.isRoute) ∧
    (∀ (env : WalletEnv) (s : State),
       ((handleConnectWallet env s).1).isRoute = s.isRoute) ∧
    (∀ (env : ChainEnv) (a role : String) (s : State),
       ((getTokenBalance env a role s).1).isRoute = s.isRoute) ∧
    (∀ (s : State) (r : FetchResult), aggregate r = some [] →
       (handleFinishSwap s r).1.data1 = [] ∧
       (handleFinishSwap s r).1.isRoute = true ∧
       (s.isRoute = false → (handleFinishSwap s r).1 ≠ s)) := by
  refine ⟨rfl, fun _ => rfl, fun _ _ => rfl, fun _ _ => rfl, ?_, ?_, ?_⟩
  · intro env s
    unfold handleConnectWallet
    split
    · rfl
    · split <;> rfl
  · intro env a role s
    unfold getTokenBalance
    split
    · rfl
    · split
      · rfl
      · split
        · exact updateTokenState_isRoute _ _ _
        · split
          · rfl
          · split <;> first | rfl | exact updateTokenState_isRoute _ _ _
  · intro s r h
    have e : handleFinishSwap s r =
        ({ s with isRoute := true, data1 := [] },
         [SwapAction.setIsRoute true, SwapAction.callAggregate,
          SwapAction.setData [], SwapAction.playAudio]) := by
      unfold handleFinishSwap
      rw [h]
    refine ⟨by rw [e], by rw [e], ?_⟩
    intro hfalse heq
    rw [e] at heq
    have h2 : true = s.isRoute := congrArg State.isRoute heq
    rw [hfalse] at h2
    exact Bool.noConfusion h2

/-- Witness for C2: a 200 response with an empty JSON object, run from
the mount state, yields a state different from the mount state. -/
theorem emptyRoute_state_distinguishable_witness :
    (handleFinishSwap initState
        (FetchResult.response { status := 200, jsonBody := some [] })).1
      ≠ initState :=
  (emptyRoute_state_distinguishable.2.2.2.2.2.2 initState
      (FetchResult.response { status := 200, jsonBody := some [] }) rfl).2.2 rfl

/-- C3: `filterTokens s` is a subsequence of the fixed four-token list
in original order, containing exactly those tokens whose lower-cased
name contains the lower-cased search term as a substring; the empty
term yields the full list unmodified, and the term `"us"` yields
`[USDC, USDT]` in original relative order. -/
theorem filterTokens_correct :
    (∀ s : String,
       (filterTokens s).Sublist tokens ∧
       ∀ t : Token, t ∈ filterTokens s ↔
         t ∈ tokens ∧ strIncludes (strToLower t.name) (strToLower s) = true) ∧
    filterTokens "" = tokens ∧
    filterTokens "us" = [usdcToken, usdtToken] := by
  refine ⟨fun s => ⟨List.filter_sublist _, fun t => ?_⟩, by rfl, by rfl⟩
  simp [filterTokens, List.mem_filter]

/-- C4: `handleSwap` is an involution on the controller state: applied
twice it restores the state exactly, and a single application moves
each Token object (with its `balance` field, fetched or not) to the
other role, losing neither balance. -/
theorem handleSwap_involutive :
    (∀ s : State, handleSwap (handleSwap s) = s) ∧
    (∀ s : State,
       (handleSwap s).fromToken = s.toToken ∧
       (handleSwap s).toToken = s.fromToken ∧
       (handleSwap s).fromToken.balance = s.toToken.balance ∧
       (handleSwap s).toToken.balance = s.fromToken.balance) :=
  ⟨fun _ => rfl, fun _ => ⟨rfl, rfl, rfl, rfl⟩⟩

/-- C5: when the `aggregate` call reports failure / yields no data
(returns `undefined`), `handleFinishSwap` leaves the stored route
mapping `data1` exactly as it was (no partial overwrite), and the
trace contains exactly one `aggregate` call (no retry). -/
theorem aggregation_failure_preserves_route (s : State) (r : FetchResult)
    (h : aggregate r = none) :
    (handleFinishSwap s r).1.data1 = s.data1 ∧
    (handleFinishSwap s r).2.count SwapAction.callAggregate = 1 := by
  have e : handleFinishSwap s r =
      ({ s with isRoute := true },
       [SwapAction.setIsRoute true, SwapAction.callAggregate,
        SwapAction.logFailure]) := by
    unfold handleFinishSwap
    rw [h]
  rw [e]
  exact ⟨rfl, rfl⟩

/-- Witness for C5: a network error from the mount state leaves
`data1` untouched and issues a single aggregate call. -/
theorem aggregation_failure_preserves_route_witness :
    (handleFinishSwap initState FetchResult.networkError).1.data1
      = initState.data1 ∧
    (handleFinishSwap initState FetchResult.networkError).2.count
      SwapAction.callAggregate = 1 :=
  aggregation_failure_preserves_route initState FetchResult.networkError rfl

/-- C6 counterexample: the claim that the in-route flag is both set
before the `aggregate` call and cleared/updated after it resolves is
false at a concrete input: for a network-error outcome the trace
contains no write to `isRoute` after the call at all. -/
theorem inRoute_flag_not_updated_after_call :
    ¬ (flagSetTrueBeforeCall initState FetchResult.networkError = true ∧
       flagWrittenAfterCall initState FetchResult.networkError = true) := by
  intro h
  exact Bool.noConfusion h.2

/-- C6 (amended): for every invocation and every outcome,
`handleFinishSwap` writes `true` to the in-route flag synchronously
before the `aggregate` call begins, never writes the flag again after
the call resolves, and leaves it permanently `true`: the code uses
`isRoute` as a show-the-route-panel flag, not as a pending flag that
is cleared on completion. -/
theorem inRoute_flag_set_before_never_written_after (s : State) (r : FetchResult) :
    flagSetTrueBeforeCall s r = true ∧
    flagWrittenAfterCall s r = false ∧
    (handleFinishSwap s r).1.isRoute = true := by
  cases r with
  | networkError => exact ⟨rfl, rfl, rfl⟩
  | response resp =>
      cases h : resp.jsonBody with
      | none =>
          have h2 : aggregate (FetchResult.response resp) = none := h
          have e : handleFinishSwap s (FetchResult.response resp) =
              ({ s with isRoute := true },
               [SwapAction.setIsRoute true, SwapAction.callAggregate,
                SwapAction.logFailure]) := by
            unfold handleFinishSwap
            rw [h2]
          refine ⟨?_, ?_, ?_⟩
          · unfold flagSetTrueBeforeCall
            rw [e]
            rfl
          · unfold flagWrittenAfterCall
            rw [e]
            rfl
          · rw [e]
      | some d =>
          have h2 : aggregate (FetchResult.response resp) = some d := h
          have e : handleFinishSwap s (FetchResult.response resp) =
              ({ s with isRoute := true, data1 := d },
               [SwapAction.setIsRoute true, SwapAction.callAggregate,
                SwapAction.setData d, SwapAction.playAudio]) := by
            unfold handleFinishSwap
            rw [h2]
          refine ⟨?_, ?_, ?_⟩
          · unfold flagSetTrueBeforeCall
            rw [e]
            rfl
          · unfold flagWrittenAfterCall
            rw [e]
            rfl
          · rw [e]

/-- C7: when no wallet extension is present, `handleConnectWallet`
detects it before any asynchronous call, performs exactly the blocking
alert and nothing else (in particular, no connection attempt and no
balance fetch), and returns the state completely unchanged, so the
wallet session fields stay as they were. -/
theorem connectWallet_noWallet_no_change (env : WalletEnv) (s : State)
    (h : env.hasEthereum = false) :
    (handleConnectWallet env s).1 = s ∧
    (handleConnectWallet env s).2 = [WalletEffect.alertNoWallet] ∧
    ∀ ta role, WalletEffect.fetchBalance ta role ∉ (handleConnectWallet env s).2 := by
  have e : handleConnectWallet env s = (s, [WalletEffect.alertNoWallet]) := by
    unfold handleConnectWallet
    rw [h]
    rfl
  rw [e]
  exact ⟨rfl, rfl, by intro ta role hmem; simp at hmem⟩

/-- Witness for C7: with no `window.ethereum` and the mount state, the
state is returned unchanged and only the alert fires. -/
theorem connectWallet_noWallet_no_change_witness :
    (handleConnectWallet { hasEthereum := false, connectResult := none } initState).1
      = initState ∧
    (handleConnectWallet { hasEthereum := false, connectResult := none } initState).2
      = [WalletEffect.alertNoWallet] ∧
    ∀ ta role, WalletEffect.fetchBalance ta role ∉
      (handleConnectWallet { hasEthereum := false, connectResult := none } initState).2 :=
  connectWallet_noWallet_no_change { hasEthereum := false, connectResult := none }
    initState rfl

/-- C8 counterexample: the claim that every `getTokenBalance` call on a
non-sentinel address issues exactly three contract reads is false at a
concrete input: with no wallet extension present, the call on the USDC
address (which is not the native sentinel) issues no read at all. -/
theorem getTokenBalance_without_wallet_issues_no_reads :
    usdcToken.address ≠ "0x4200000000000000000000000000000000000006" ∧
    (getTokenBalance envNoWallet usdcToken.address "from" initState).2 = [] ∧
    (getTokenBalance envNoWallet usdcToken.address "from" initState).2 ≠
      [[BalanceRead.balanceOfRead, BalanceRead.decimalsRead,
        BalanceRead.symbolRead]] :=
  ⟨by decide, by decide, by decide⟩

set_option maxRecDepth 8000 in
/-- C8 (amended): a `getTokenBalance` call on the native-asset sentinel
never issues a `balanceOf` read, whatever the environment.  Given a
wallet with an account: the sentinel path issues exactly one native
balance read and formats with 18 decimals; a non-sentinel address
whose checksum validation fails issues no read and changes nothing;
a validated non-sentinel address issues exactly the three reads
`balanceOf`, `decimals`, `symbol` in one concurrent batch, and on
success formats the raw balance with the token's own fetched decimal
count. -/
theorem getTokenBalance_read_discipline :
    (∀ (env : ChainEnv) (role : String) (s : State),
       ∀ batch ∈ (getTokenBalance env
           "0x4200000000000000000000000000000000000006" role s).2,
         BalanceRead.balanceOfRead ∉ batch) ∧
    (∀ (env : ChainEnv) (a role u : String) (s : State),
       env.hasEthereum = true → env.accounts.head? = some u →
       (a = "0x4200000000000000000000000000000000000006" →
          (getTokenBalance env a role s).2 = [[BalanceRead.nativeBalanceRead]] ∧
          (getTokenBalance env a role s).1 =
            updateTokenState s role (formatUnits (env.nativeBalance u) 18)) ∧
       (a ≠ "0x4200000000000000000000000000000000000006" →
          (env.getAddress a = none → getTokenBalance env a role s = (s, [])) ∧
          ∀ ca, env.getAddress a = some ca →
            (getTokenBalance env a role s).2 =
              [[BalanceRead.balanceOfRead, BalanceRead.decimalsRead,
                BalanceRead.symbolRead]] ∧
            ∀ raw dec sym, env.balanceOf ca u = some raw →
              env.decimalsOf ca = some dec → env.symbolOf ca = some sym →
              (getTokenBalance env a role s).1 =
                updateTokenState s role (formatUnits raw dec))) := by
  constructor
  · intro env role s batch hb
    unfold getTokenBalance at hb
    split at hb
    · simp at hb
    · split at hb
      · simp at hb
      · split at hb
        · simp at hb
          subst hb
          decide
        · rename_i hcond
          exact absurd rfl hcond
  · intro env a role u s hw hu
    constructor
    · intro ha
      subst ha
      simp [getTokenBalance, hw, hu]
    · intro ha
      constructor
      · intro hga
        simp [getTokenBalance, hw, hu, ha, hga]
      · intro ca hca
        constructor
        · simp only [getTokenBalance, hw, hu, hca, Bool.not_true]
          simp [ha]
          cases hb : env.balanceOf ca u <;> cases hd : env.decimalsOf ca <;>
            cases hs : env.symbolOf ca <;> rfl
        · intro raw dec sym hb hd hs
          simp [getTokenBalance, hw, hu, ha, hca, hb, hd, hs]

/-- Witness for C8: in the healthy environment the USDC address
triggers exactly the one concurrent batch of three reads, and the
fetched raw balance 5000000 is formatted with the fetched 6 decimals. -/
theorem getTokenBalance_read_discipline_witness :
    (getTokenBalance envHealthy usdcToken.address "from" initState).2 =
      [[BalanceRead.balanceOfRead, BalanceRead.decimalsRead,
        BalanceRead.symbolRead]] ∧
    (getTokenBalance envHealthy usdcToken.address "from" initState).1 =
      updateTokenState initState "from" (formatUnits 5000000 6) := by
  have h := ((getTokenBalance_read_discipline.2 envHealthy usdcToken.address "from"
      "0x1111111111111111111111111111111111111111" initState rfl rfl).2
      (by decide)).2 usdcToken.address rfl
  exact ⟨h.1, h.2 5000000 6 "USDC" rfl rfl rfl⟩

/-- C9: for presets `P` and `Q` from the fixed list, selecting `P` and
then `Q` leaves exactly `Q` carrying the `active` class (mutual
exclusion over the preset buttons), and selecting `P` twice leaves
exactly `P` active (idempotent re-selection). -/
theorem preset_selection_exclusive_idempotent (P Q : String) (s : State)
    (_hP : P ∈ presets) (_hQ : Q ∈ presets) (_hPQ : P ≠ Q) :
    (isPresetActive (setAmount Q (setAmount P s)) Q = true ∧
     ∀ R ∈ presets,
       (isPresetActive (setAmount Q (setAmount P s)) R = true ↔ R = Q)) ∧
    (isPresetActive (setAmount P (setAmount P s)) P = true ∧
     ∀ R ∈ presets,
       (isPresetActive (setAmount P (setAmount P s)) R = true ↔ R = P)) := by
  refine ⟨⟨?_, ?_⟩, ⟨?_, ?_⟩⟩
  · simp [isPresetActive, setAmount]
  · intro R _
    simp only [isPresetActive, setAmount, beq_iff_eq]
    exact eq_comm
  · simp [isPresetActive, setAmount]
  · intro R _
    simp only [isPresetActive, setAmount, beq_iff_eq]
    exact eq_comm

/-- Witness for C9: selecting 25% and then 50% from the mount state
leaves 50% active. -/
theorem preset_selection_exclusive_idempotent_witness :
    isPresetActive (setAmount "50%" (setAmount "25%" initState)) "50%" = true :=
  ((preset_selection_exclusive_idempotent "25%" "50%" initState (by decide)
      (by decide) (by decide)).1).1

/-- C10: both dropdowns render from the single shared `searchTerm`
state cell: in every state the two displayed token lists are equal,
and typing a term into either search box updates that one shared cell,
after which both dropdowns show the list filtered by that term — the
two dropdowns can never be filtered by different terms. -/
theorem shared_search_filter :
    (∀ s : State, sourceDropdownTokens s = destDropdownTokens s) ∧
    (∀ (s : State) (t : String),
       sourceDropdownTokens (setSearchTerm t s) = filterTokens t ∧
       destDropdownTokens (setSearchTerm t s) = filterTokens t) :=
  ⟨fun _ => rfl, fun _ _ => ⟨rfl, rfl⟩⟩
